import Mathlib

/-!
Shallow embedding of `src/app.py` (Scan Reports Analyzer): the text pipeline
between the raw model analysis text and the user-visible artefacts.

Text is modelled as `List Char`.  Python string methods (`lower`, `strip`,
`split`, slicing, `in`) and the specific `re` patterns used by the code are
modelled by executable functions below.  External collaborators (the
generative model call and PIL image decoding) are modelled as oracle inputs.
-/

namespace ScanReports

/-- Python `str.lower` character by character (ASCII casing suffices for the
vocabulary the code matches). -/
def lowerText (t : List Char) : List Char := t.map Char.toLower

/-- Characters removed by Python `str.strip()`. -/
def isPyWs (c : Char) : Bool :=
  c = ' ' || c = '\t' || c = '\n' || c = '\r' || c = '\x0b' || c = '\x0c'

/-- Python `str.strip()`. -/
def pyStrip (l : List Char) : List Char :=
  ((l.dropWhile isPyWs).reverse.dropWhile isPyWs).reverse

/-- Python substring test `needle in hay`. -/
def hasSub (needle : List Char) : List Char → Bool
  | [] => needle.isEmpty
  | c :: rest => needle.isPrefixOf (c :: rest) || hasSub needle rest

/-- Python `str.split` on a single newline separator: keeps empty pieces,
`"".split` gives one empty piece. -/
def splitNl : List Char → List (List Char)
  | [] => [[]]
  | c :: rest =>
    if c = '\n' then [] :: splitNl rest
    else
      match splitNl rest with
      | [] => [[c]]
      | g :: gs => (c :: g) :: gs

/-- The two chained `str.replace` calls of `app.py` line 627:
`<` becomes `&lt;` and `>` becomes `&gt;`. -/
def escapeLtGt : List Char → List Char
  | [] => []
  | c :: rest =>
    (if c = '<' then ("&lt;").toList
     else if c = '>' then ("&gt;").toList
     else [c]) ++ escapeLtGt rest

/-- Concatenating map, used to model Python loops that append several items
per iteration. -/
def catMap (f : α → List β) : List α → List β
  | [] => []
  | a :: l => f a ++ catMap f l

/-- Case-insensitive character-list matching at the front, modelling how
`re.IGNORECASE` compares the literal part of a pattern. -/
def ciPre : List Char → List Char → Bool
  | [], _ => true
  | _ :: _, [] => false
  | a :: as, b :: bs => (a.toLower == b.toLower) && ciPre as bs

/-- Model of `re.search` scanning for the first case-insensitive occurrence of the
literal `needle`; returns the text after that occurrence. -/
def findTail (needle : List Char) : List Char → Option (List Char)
  | [] => if ciPre needle [] then some [] else none
  | c :: rest =>
    if ciPre needle (c :: rest) then some (List.drop needle.length (c :: rest))
    else findTail needle rest

/-- The lazy capture `(.*?)(?=LOOK|$)` of the section patterns: consume
characters until the lookahead `look` fires, or `$` fires (end of text, or
just before one trailing newline). -/
def captureLazy (look : List Char → Bool) : List Char → List Char
  | [] => []
  | c :: rest =>
    if look (c :: rest) || (c = '\n' && rest.isEmpty) then []
    else c :: captureLazy look rest

/-- One marker-matching strategy: a literal pattern head followed by a lazy
capture bounded by a lookahead. -/
structure Pat where
  head : List Char
  look : List Char → Bool

/-- Run one strategy against the text, as `re.search(pattern, text,
re.DOTALL | re.IGNORECASE)` does for the shapes used in `app.py`. -/
def runPat (p : Pat) (t : List Char) : Option (List Char) :=
  (findTail p.head t).map (captureLazy p.look)

/-- The pattern cascade of `app.py` (lines 595-609 and 931-944): try each
strategy in order and stop at the first one whose regex matches, returning
the stripped capture (which may be empty). -/
def extractFirst : List Pat → List Char → Option (List Char)
  | [], _ => none
  | p :: ps, t =>
    match runPat p t with
    | some cap => some (pyStrip cap)
    | none => extractFirst ps t

/-- Literal front match (case-sensitive), for lookaheads. -/
def dropHead (pre cs : List Char) : Option (List Char) :=
  if pre.isPrefixOf cs then some (cs.drop pre.length) else none

/-- Class `[A-Z]` under `re.IGNORECASE`: any ASCII letter. -/
def isAZ (c : Char) : Bool :=
  (65 ≤ c.toNat && c.toNat ≤ 90) || (97 ≤ c.toNat && c.toNat ≤ 122)

/-- The emoji alternation `(?:🔬|📋|🔍|⚠️|🚨|📝|🔗|👨‍⚕️|🌟|📅|❓|📊)` of the
PDF patterns, as the code-point sequences of each alternative. -/
def emojiSeqs : List (List Char) :=
  [("🔬").toList, ("📋").toList, ("🔍").toList, ("⚠️").toList,
   ("🚨").toList, ("📝").toList, ("🔗").toList, ("👨‍⚕️").toList,
   ("🌟").toList, ("📅").toList, ("❓").toList, ("📊").toList]

/-- After an emoji alternative: a space then an ASCII letter. -/
def spaceLetterNext : List Char → Bool
  | a :: b :: _ => a = ' ' && isAZ b
  | _ => false

/-- One emoji alternative followed by a space and a letter. -/
def emojiSpaceLetter (cs : List Char) : Bool :=
  emojiSeqs.any (fun e =>
    match dropHead e cs with
    | some r => spaceLetterNext r
    | none => false)

/-- Lookahead of PDF pattern 1: `\*\*(?:emoji) [A-Z]`. -/
def pdfLook1 (cs : List Char) : Bool :=
  match dropHead (("**").toList) cs with
  | some r => emojiSpaceLetter r
  | none => false

/-- Lookahead of PDF pattern 2: `\*\*[A-Z]`. -/
def pdfLook2 : List Char → Bool
  | a :: b :: rest => a = '*' && b = '*' && (match rest with | c :: _ => isAZ c | [] => false)
  | _ => false

/-- Lookahead of PDF pattern 4: `\*[A-Z]`. -/
def pdfLook4 : List Char → Bool
  | a :: b :: _ => a = '*' && isAZ b
  | _ => false

/-- The four strategies tried per PDF section (`app.py` lines 597-602):
`**TITLE:**`, `**Key:**`, `TITLE:`, `*Key:*`, each with its lookahead. -/
def pdfPatterns (title key : List Char) : List Pat :=
  [⟨("**").toList ++ title ++ (":**").toList, pdfLook1⟩,
   ⟨("**").toList ++ key ++ (":**").toList, pdfLook2⟩,
   ⟨title ++ (":").toList, emojiSpaceLetter⟩,
   ⟨("*").toList ++ key ++ (":*").toList, pdfLook4⟩]

/-- The fifteen PDF sections (`app.py` lines 577-593): heading as printed in
the model contract, and plain key. -/
def pdf_sections : List (List Char × List Char) :=
  [((("🔬 SCAN TYPE & PURPOSE").toList), (("Scan Type & Purpose").toList)),
   ((("📋 EXECUTIVE SUMMARY").toList), (("Executive Summary").toList)),
   ((("🔍 DETAILED FINDINGS").toList), (("Detailed Findings").toList)),
   ((("⚠️ ABNORMALITIES IDENTIFIED").toList), (("Abnormalities Identified").toList)),
   ((("🚨 EMERGENCY STATUS").toList), (("Emergency Status").toList)),
   ((("📝 PROBLEM EXPLANATION").toList), (("Problem Explanation").toList)),
   ((("🔗 MEDICAL CORRELATION").toList), (("Medical Correlation").toList)),
   ((("👨‍⚕️ SPECIALIST CONSULTATIONS").toList), (("Specialist Consultations").toList)),
   ((("⚠️ IMMEDIATE PRECAUTIONS").toList), (("Immediate Precautions").toList)),
   ((("🌟 LIFESTYLE RECOMMENDATIONS").toList), (("Lifestyle Recommendations").toList)),
   ((("📅 FOLLOW-UP REQUIREMENTS").toList), (("Follow-up Requirements").toList)),
   ((("❓ QUESTIONS FOR YOUR DOCTOR").toList), (("Questions for Your Doctor").toList)),
   ((("🚨 WARNING SIGNS").toList), (("Warning Signs").toList)),
   ((("📊 PROGNOSIS & OUTLOOK").toList), (("Prognosis & Outlook").toList)),
   ((("🔬 LATEST RESEARCH").toList), (("Latest Research").toList))]

/-- Result of the per-section pattern cascade in the PDF builder. -/
def extractedContent (t title key : List Char) : Option (List Char) :=
  extractFirst (pdfPatterns title key) t

/-- The emergency test the app applies to analysis text:
`"emergency" in text.lower() or "urgent" in text.lower()`
(`app.py` lines 614, 889 and 910). -/
def is_emergency (t : List Char) : Bool :=
  hasSub (("emergency").toList) (lowerText t) || hasSub (("urgent").toList) (lowerText t)

/-- From `app.py` line 889: the emergency banner is shown exactly when the
emergency test holds on the fresh analysis result. -/
def shows_emergency_banner (analysisResult : List Char) : Bool :=
  is_emergency analysisResult

/-- From `app.py` line 918: display style chosen for the "Emergency Status"
section. -/
def emergency_status_type (t : List Char) : String :=
  if is_emergency t then ("emergency") else ("normal")

/-- From `app.py` line 926: display style chosen for the "Warning Signs"
section. -/
def warning_signs_type (t : List Char) : String :=
  if is_emergency t then ("emergency") else ("warning")

/-- Python truthiness of a decimal `Nat` rendering. -/
def natChars (n : Nat) : List Char := (Nat.repr n).toList

/-- The raw patient-data dictionary built at `app.py` lines 860-871:
form values are stored verbatim, with no defaulting of blank fields. -/
structure PatientData where
  age : Nat
  gender : List Char
  medical_history : List Char
  medications : List Char
  symptoms : List Char
  health_problems : List Char
  family_history : List Char
  diet : List Char
  lifestyle : List Char
  habits : List Char
deriving DecidableEq

/-- From `app.py` lines 860-871: the dictionary is the form state, unchanged. -/
def build_patient_data (age : Nat) (gender medical_history medications symptoms
    health_problems family_history diet lifestyle habits : List Char) : PatientData :=
  ⟨age, gender, medical_history, medications, symptoms, health_problems,
   family_history, diet, lifestyle, habits⟩

/-- The `enhanced_query` f-string of `app.py` lines 371-401, with every
interpolation hole made explicit.  Line breaks and the 8-space indentation
of the Python triple-quoted literal are preserved. -/
def enhanced_query (pd : PatientData) (scan_type : List Char) : List Char :=
  ("\n        MEDICAL SCAN ANALYSIS REQUEST - ").toList ++ scan_type ++
  ("\n        \n        Patient Profile:\n        - Age: ").toList ++ natChars pd.age ++
  (" years\n        - Gender: ").toList ++ pd.gender ++
  ("\n        - Medical History: ").toList ++ pd.medical_history ++
  ("\n        - Current Medications: ").toList ++ pd.medications ++
  ("\n        - Current Symptoms: ").toList ++ pd.symptoms ++
  ("\n        - Health Problems: ").toList ++ pd.health_problems ++
  ("\n        - Diet: ").toList ++ pd.diet ++
  ("\n        - Lifestyle: ").toList ++ pd.lifestyle ++
  ("\n        - Habits: ").toList ++ pd.habits ++
  ("\n        - Family History: ").toList ++ pd.family_history ++
  ("\n        \n        ANALYSIS REQUIREMENTS:\n        1. First, search for the latest medical guidelines and research relevant to this ").toList ++ scan_type ++
  ("\n        2. Use current diagnostic criteria and reference ranges\n        3. Integrate real-time medical literature and evidence-based medicine\n        4. Provide comprehensive analysis following the structured format\n        5. Ensure all recommendations are based on current medical standards\n        \n        CRITICAL INSTRUCTIONS:\n        - If ANY emergency conditions are detected, state this immediately at the beginning\n        - Use the latest medical research and guidelines in your analysis\n        - Provide specific, actionable recommendations\n        - Include prognosis and latest research findings\n        - Ensure all medical advice is current and evidence-based\n        \n        Please analyze this medical scan/report with the highest level of medical expertise and current knowledge.\n        ").toList

/-- One field of the PDF patient-information list (`app.py` lines 540-542):
the value sliced to 200 characters, with a trailing ellipsis exactly when
the original was longer. -/
def truncField (label v : List Char) : List Char :=
  label ++ v.take 200 ++ (if 200 < v.length then ("...").toList else [])

/-- The `patient_info` list of `app.py` lines 535-543 (`now` stands for the
formatted `datetime.now()`). -/
def patient_info (pd : PatientData) (scan_type now : List Char) : List (List Char) :=
  [("Age: ").toList ++ natChars pd.age ++ (" years").toList,
   ("Gender: ").toList ++ pd.gender,
   ("Scan Type: ").toList ++ scan_type,
   ("Analysis Date: ").toList ++ now,
   truncField (("Medical History: ").toList) pd.medical_history,
   truncField (("Current Medications: ").toList) pd.medications,
   truncField (("Current Symptoms: ").toList) pd.symptoms]

/-- A typed block of the assembled PDF document: a styled paragraph, an
embedded image with display dimensions in points, or vertical space. -/
inductive Block where
  | para (style : String) (txt : List Char)
  | img (w h : ℚ)
  | spacer (h : ℚ)
deriving DecidableEq

/-- One typographic inch in points, exact. -/
def inchPts : ℚ := 72

/-- Exact-real-arithmetic idealization of the display-size computation at
`app.py` lines 556-562 for a decodable source image of pixel size `w × h`:
start from a 6-inch width at the source aspect, and scale down further if
the height would exceed 7 inches.  The source computes in IEEE binary64;
the faithful rounded model is `displayDimsD` below, and this exact version
backs only the amended C8 statement about the ideal arithmetic. -/
def displayDims (w h : ℚ) : ℚ × ℚ :=
  let aspect := h / w
  let dw := 6 * inchPts
  let dh := dw * aspect
  if 7 * inchPts < dh then (7 * inchPts / aspect, 7 * inchPts) else (dw, dh)

/-- A binary64 value in significand–exponent form, denoting `m · 2 ^ e`.
Rounding below always produces a 53-bit significand; the representation is
not otherwise normalized. -/
structure Dbl where
  m : Int
  e : Int
deriving DecidableEq

/-- Value range step: while `n / d ≥ 2 ^ 53`, halve (raising the binary
exponent).  Structural fuel; the loop returns as soon as the bound holds
and the fuel passed by `roundPosD` always suffices. -/
def fpShrink : Nat → Nat → Nat → Int → Nat × Nat × Int
  | 0, n, d, e => (n, d, e)
  | fuel + 1, n, d, e =>
    if 9007199254740992 * d ≤ n then fpShrink fuel n (2 * d) (e + 1) else (n, d, e)

/-- Value range step: while `n / d < 2 ^ 52`, double (lowering the binary
exponent). -/
def fpGrow : Nat → Nat → Nat → Int → Nat × Nat × Int
  | 0, n, d, e => (n, d, e)
  | fuel + 1, n, d, e =>
    if n < 4503599627370496 * d then fpGrow fuel (2 * n) d (e - 1) else (n, d, e)

/-- Nearest integer to `n / d`, ties to even. -/
def roundHalfEven (n d : Nat) : Nat :=
  let q := n / d
  let r := n % d
  if 2 * r < d then q
  else if d < 2 * r then q + 1
  else if q % 2 = 0 then q else q + 1

/-- Round the positive rational `(n / d) · 2 ^ e` to the nearest binary64
value (round-to-nearest, ties to even): scale the significand into
`[2 ^ 52, 2 ^ 53)` and round it to an integer.  Overflow and subnormals
are outside the range of the display-size arithmetic and not modelled. -/
def roundPosD (n d : Nat) (e : Int) : Dbl :=
  match fpShrink (n + 64) n d e with
  | (n1, d1, e1) =>
    match fpGrow (n1 + d1 + 64) n1 d1 e1 with
    | (n2, d2, e2) => Dbl.mk (Int.ofNat (roundHalfEven n2 d2)) e2

/-- Round the rational `(a / b) · 2 ^ e` to binary64, handling signs; zero
maps to zero. -/
def roundRatD (a b : Int) (e : Int) : Dbl :=
  if a = 0 ∨ b = 0 then Dbl.mk 0 0
  else
    let r := roundPosD a.natAbs b.natAbs e
    if (0 < a ∧ 0 < b) ∨ (a < 0 ∧ b < 0) then r else Dbl.mk (-r.m) r.e

/-- Binary64 division: the exact quotient of the operand values, rounded. -/
def fdivD (x y : Dbl) : Dbl := roundRatD x.m y.m (x.e - y.e)

/-- Binary64 multiplication: the exact product, rounded. -/
def fmulD (x y : Dbl) : Dbl := roundRatD (x.m * y.m) 1 (x.e + y.e)

/-- Binary64 comparison, exact on the denoted values. -/
def fltD (x y : Dbl) : Bool :=
  let k := min x.e y.e
  decide (x.m * 2 ^ (x.e - k).toNat < y.m * 2 ^ (y.e - k).toNat)

/-- Powers of two as rationals, for interpreting `Dbl`. -/
def pow2z : Int → ℚ
  | Int.ofNat k => (2 : ℚ) ^ k
  | Int.negSucc k => 1 / (2 : ℚ) ^ (k + 1)

/-- The real value a `Dbl` denotes. -/
def Dbl.toRat (x : Dbl) : ℚ := (x.m : ℚ) * pow2z x.e

/-- Faithful binary64 model of the display-size computation at `app.py`
lines 556-562.  The constants `6 * inch` and `7 * inch` are the exact
binary64 numbers 432.0 and 504.0 (products of small integers stay exact),
so they enter as exact constants; `img_height / float(img_width)`, the
width–aspect product and the clamped division are rounded exactly as the
double arithmetic of the source rounds them.  The pixel dimensions are
Python ints, exact in binary64 for any realistic image size. -/
def displayDimsD (w h : Int) : Dbl × Dbl :=
  let aspect := fdivD (Dbl.mk h 0) (Dbl.mk w 0)
  let dw := Dbl.mk 432 0
  let dh := fmulD dw aspect
  if fltD (Dbl.mk 504 0) dh then (fdivD (Dbl.mk 504 0) aspect, Dbl.mk 504 0)
  else (dw, dh)

/-- The image area of the PDF (`app.py` lines 551-570).  The oracle `img`
is `none` when `image_data` is falsy, `some none` when the bytes do not
decode (PIL raises), and `some (some (w, h))` for a decoded image. -/
def imageBlocks (img : Option (Option (ℚ × ℚ))) (scan_type err : List Char) : List Block :=
  match img with
  | none => []
  | some none =>
    [Block.para ("normal") ((("⚠️ Could not include image: ").toList) ++ err)]
  | some (some (w, h)) =>
    [Block.para ("heading") ((("🖼️ ").toList) ++ scan_type ++ ((" IMAGE").toList)),
     Block.img (displayDims w h).1 (displayDims w h).2,
     Block.spacer (3 / 10 * inchPts)]

/-- Paragraph blocks for a non-emergency section body (`app.py` lines
624-628): split on newlines, keep non-blank pieces, escape `<` and `>`. -/
def paragraphBlocks (cf : List Char) : List Block :=
  catMap (fun p =>
    if (pyStrip p).isEmpty then []
    else [Block.para ("normal") (escapeLtGt (pyStrip p))]) (splitNl cf)

/-- Python `str.upper`, for the emergency heading of line 615. -/
def upperText (t : List Char) : List Char := t.map Char.toUpper

/-- The blocks one PDF section contributes (`app.py` lines 595-630): nothing
when no pattern matched or the stripped capture is empty; the emergency
styling for the "Emergency Status"/"Warning Signs" keys when the content
mentions emergency vocabulary (body embedded verbatim, unescaped); the
escaped paragraph rendering otherwise. -/
def sectionBlocks (t title key : List Char) : List Block :=
  match extractedContent t title key with
  | none => []
  | some cf =>
    if cf.isEmpty then []
    else if key = ("Emergency Status").toList ∨ key = ("Warning Signs").toList then
      (if is_emergency cf then
        [Block.para ("heading") ((("🚨 ").toList) ++ upperText key),
         Block.para ("emergency") cf]
       else
        [Block.para ("heading") title, Block.para ("normal") cf])
      ++ [Block.spacer (1 / 5 * inchPts)]
    else
      (Block.para ("heading") title :: paragraphBlocks cf)
      ++ [Block.spacer (1 / 5 * inchPts)]

/-- All blocks contributed by the fifteen-section parsing loop. -/
def analysisSectionBlocks (t : List Char) : List Block :=
  catMap (fun p => sectionBlocks t p.1 p.2) pdf_sections

/-- The analysis area: its heading is unconditional (`app.py` line 573), the
section loop runs only when `analysis_results` is truthy (line 575). -/
def sectionArea (analysis : List Char) : List Block :=
  if analysis.isEmpty then [] else analysisSectionBlocks analysis

/-- The PDF title paragraph (`app.py` line 518). -/
def titlePara : Block :=
  Block.para ("title") (("🔬 SCAN REPORTS ANALYZER").toList)

/-- The mandatory medical disclaimer paragraph (`app.py` lines 524-529). -/
def disclaimerPara : Block :=
  Block.para ("disclaimer")
    (("⚠️ MEDICAL DISCLAIMER: This analysis incorporates real-time medical data and current guidelines for educational and informational purposes only. It should NOT replace professional medical advice, diagnosis, or treatment. Always consult with qualified healthcare professionals for medical decisions.").toList)

/-- Header blocks of the PDF (`app.py` lines 518-530). -/
def pdfHeader : List Block :=
  [titlePara,
   Block.para ("subtitle") (("Universal Medical Imaging Analysis Report").toList),
   Block.para ("subtitle") (("Real-Time Medical Data Integration").toList),
   Block.spacer (3 / 10 * inchPts),
   disclaimerPara,
   Block.spacer (3 / 10 * inchPts)]

/-- Patient-information blocks (`app.py` lines 533-548). -/
def patientBlock (pd : PatientData) (scan_type now : List Char) : List Block :=
  Block.para ("heading") (("👤 PATIENT INFORMATION").toList) ::
  (patient_info pd scan_type now).map (Block.para ("normal")) ++
  [Block.spacer (3 / 10 * inchPts)]

/-- Closing blocks (`app.py` lines 633-647). -/
def pdfTail : List Block :=
  [Block.para ("heading") (("🚨 EMERGENCY CONTACT INFORMATION").toList),
   Block.para ("emergency")
     (("SEEK IMMEDIATE MEDICAL ATTENTION for: Severe chest pain, difficulty breathing, loss of consciousness, severe bleeding, stroke symptoms, or any life-threatening conditions. Contact emergency services immediately (911, 108, 999, etc.)").toList),
   Block.spacer (1 / 2 * inchPts),
   Block.para ("footer") (("© 2025 Scan Reports Analyzer | Real-Time Medical Analysis | Powered by Gemini AI + Tavily").toList)]

/-- The full ordered block list built by `create_enhanced_medical_pdf`. -/
def pdfBlocks (img : Option (Option (ℚ × ℚ))) (analysis : List Char)
    (pd : PatientData) (scan_type now err : List Char) : List Block :=
  pdfHeader ++ patientBlock pd scan_type now ++ imageBlocks img scan_type err ++
  (Block.para ("heading") (("📊 COMPREHENSIVE MEDICAL ANALYSIS").toList) ::
    sectionArea analysis) ++
  pdfTail

/-- Model of `create_enhanced_medical_pdf` (`app.py` lines 438-655): the outer
`except` only fires on serialization exceptions of the PDF library; an
undecodable image is handled inside and the function still returns a
document. -/
def create_enhanced_medical_pdf (img : Option (Option (ℚ × ℚ)))
    (analysis : List Char) (pd : PatientData) (scan_type now err : List Char) :
    Option (List Block) :=
  some (pdfBlocks img analysis pd scan_type now err)

/-- Lookahead of the main-page pattern 1: `\*\*[emoji-class]`.  A character
class over multi-code-point emoji degrades to a class of the individual
code points, exactly as in Python. -/
def classChars : List Char := ("🔬📋🔍⚠️🚨📝🔗👨‍⚕️🌟📅❓📊").toList

/-- Lookahead `\*\*[class]`. -/
def mainLook1 : List Char → Bool
  | a :: b :: rest =>
    a = '*' && b = '*' && (match rest with | c :: _ => classChars.contains c | [] => false)
  | _ => false

/-- Lookahead `[class]`. -/
def mainLook2 : List Char → Bool
  | c :: _ => classChars.contains c
  | [] => false

/-- The three strategies per displayed section (`app.py` lines 933-937). -/
def mainPatterns (title : List Char) : List Pat :=
  [⟨("**").toList ++ title ++ (":**").toList, mainLook1⟩,
   ⟨title ++ (":").toList, mainLook2⟩,
   ⟨("*").toList ++ title ++ (":*").toList, pdfLook4⟩]

/-- The fifteen display titles of `app.py` lines 913-929. -/
def display_titles : List (List Char) :=
  [("🔬 Scan Type & Purpose").toList, ("📋 Executive Summary").toList,
   ("🔍 Detailed Findings").toList, ("⚠️ Abnormalities Identified").toList,
   ("🚨 Emergency Status").toList, ("📝 Problem Explanation").toList,
   ("🔗 Medical Correlation").toList, ("👨‍⚕️ Specialist Consultations").toList,
   ("⚠️ Immediate Precautions").toList, ("🌟 Lifestyle Recommendations").toList,
   ("📅 Follow-up Requirements").toList, ("❓ Questions for Your Doctor").toList,
   ("🚨 Warning Signs").toList, ("📊 Prognosis & Outlook").toList,
   ("🔬 Latest Research").toList]

/-- Result of the main-page cascade for one displayed section. -/
def mainExtract (t title : List Char) : Option (List Char) :=
  extractFirst (mainPatterns title) t

/-- The sections actually rendered on the results page (`app.py` lines
931-947): only titles whose cascade matched with non-empty stripped
content. -/
def displaySections (t : List Char) : List (List Char × List Char) :=
  catMap (fun title =>
    match mainExtract t title with
    | none => []
    | some c => if c.isEmpty then [] else [(title, c)]) display_titles

/-- Model of `analyze_medical_scan` (`app.py` lines 347-424): `resp` is `none` when
the agent is unavailable, the call raised, or the response object was
falsy; otherwise the response content, which the function strips. -/
def analyze_medical_scan (resp : Option (List Char)) : Option (List Char) :=
  resp.map pyStrip

/-- Python truthiness of the optional analysis string. -/
def pyTruthy : Option (List Char) → Bool
  | none => false
  | some s => !s.isEmpty

/-- Stored results of one analysis run (`st.session_state`). -/
structure SessionState where
  analysis_results : Option (List Char)
  medical_image : Option (List Char)
  patient_data : Option PatientData
  scan_type : Option (List Char)
  analysis_timestamp : Option (List Char)
deriving DecidableEq

/-- From `app.py` lines 879-893: the five session fields are overwritten only
when the analysis result is truthy; otherwise an error is shown and the
previous state is kept. -/
def handleAnalysis (prev : SessionState) (result : Option (List Char))
    (imgBytes : List Char) (pd : PatientData) (scan_type ts : List Char) : SessionState :=
  if pyTruthy result then
    { analysis_results := result, medical_image := some imgBytes,
      patient_data := some pd, scan_type := some scan_type,
      analysis_timestamp := some ts }
  else prev

/-- Does a block embed the given character? -/
def blockHasChar (c : Char) : Block → Bool
  | Block.para _ txt => decide (c ∈ txt)
  | _ => false

/-- Does a block embed the given character sequence? -/
def blockHasSeq (needle : List Char) : Block → Bool
  | Block.para _ txt => hasSub needle txt
  | _ => false

/-- Is a block an image block? -/
def isImg : Block → Bool
  | Block.img _ _ => true
  | _ => false

/-- Any image block in a list? -/
def anyImg : List Block → Bool
  | [] => false
  | b :: l => isImg b || anyImg l

lemma isPrefixOf_append_self : ∀ (n t : List Char), n.isPrefixOf (n ++ t) = true := by
  intro n t
  induction n with
  | nil => simp [List.isPrefixOf]
  | cons a as ih => simp [List.isPrefixOf, ih]

lemma hasSub_here {n l : List Char} (h : n.isPrefixOf l = true) : hasSub n l = true := by
  cases l with
  | nil =>
    cases n with
    | nil => rfl
    | cons a as => simp [List.isPrefixOf] at h
  | cons c r => simp [hasSub, h]

lemma hasSub_there {n l : List Char} (c : Char) (h : hasSub n l = true) :
    hasSub n (c :: l) = true := by
  simp [hasSub, h]

lemma hasSub_append (n : List Char) :
    ∀ (s t : List Char), hasSub n (s ++ n ++ t) = true := by
  intro s
  induction s with
  | nil =>
    intro t
    simp only [List.nil_append]
    exact hasSub_here (isPrefixOf_append_self n t)
  | cons c s ih =>
    intro t
    exact hasSub_there c (ih t)

lemma hasSub_of_contained {n l : List Char} (h : n <:+: l) : hasSub n l = true := by
  obtain ⟨s, t, rfl⟩ := h
  exact hasSub_append n s t

/-- C1.  Any occurrence of "emergency" in any letter casing anywhere in the
analysis text makes the emergency classification of the program fire: the
`is_emergency` flag is true, the emergency banner is shown, and the
"Emergency Status" display section is styled as emergency. -/
theorem c1_emergency_substring_triggers (t s : List Char)
    (hcase : s.map Char.toLower = ("emergency").toList)
    (hsub : s <:+: t) :
    is_emergency t = true ∧
    shows_emergency_banner t = true ∧
    emergency_status_type t = "emergency" := by
  have hinf : ("emergency").toList <:+: lowerText t := by
    obtain ⟨u, v, rfl⟩ := hsub
    refine ⟨lowerText u, lowerText v, ?_⟩
    simp only [lowerText, List.map_append, List.append_assoc]
    rw [hcase]
  have hflag : is_emergency t = true := by
    unfold is_emergency
    rw [hasSub_of_contained hinf]
    simp
  refine ⟨hflag, ?_, ?_⟩
  · unfold shows_emergency_banner
    exact hflag
  · unfold emergency_status_type
    rw [hflag]
    simp

/-- Witness for C1 at a concrete mixed-case input. -/
theorem c1_emergency_substring_triggers_witness :
    is_emergency (("Routine scan. EMERGENCY findings present.").toList) = true ∧
    shows_emergency_banner (("Routine scan. EMERGENCY findings present.").toList) = true ∧
    emergency_status_type (("Routine scan. EMERGENCY findings present.").toList) = "emergency" :=
  c1_emergency_substring_triggers
    (("Routine scan. EMERGENCY findings present.").toList)
    (("EMERGENCY").toList)
    (by decide) (by decide)

/-- C2 counterexample.  For an analysis text with only ambiguous severity
vocabulary (no emergency/urgent trigger) the classification computed by the program is the
boolean `false` and the "Emergency Status" section is styled with the
literal style "normal" — there is no Unknown level anywhere in the code, so
the claimed "Unknown, never Normal" behaviour is false on this input. -/
theorem c2_ambiguous_is_normal_counterexample :
    is_emergency (("The appearance is equivocal and nonspecific.").toList) = false ∧
    emergency_status_type (("The appearance is equivocal and nonspecific.").toList) = "normal" := by
  constructor
  · decide
  · decide

/-- C2 amended.  Whenever the emergency test fails, the "Emergency Status"
section is styled "normal" and the "Warning Signs" section "warning": the
code defaults to the normal styling on ambiguous input instead of an
Unknown level. -/
theorem c2_no_trigger_yields_normal_styling (t : List Char)
    (h : is_emergency t = false) :
    emergency_status_type t = "normal" ∧ warning_signs_type t = "warning" := by
  unfold emergency_status_type warning_signs_type
  rw [h]
  simp

/-- Witness for the amended C2 at a concrete ambiguous input. -/
theorem c2_no_trigger_yields_normal_styling_witness :
    emergency_status_type (("Findings of uncertain significance.").toList) = "normal" ∧
    warning_signs_type (("Findings of uncertain significance.").toList) = "warning" :=
  c2_no_trigger_yields_normal_styling
    (("Findings of uncertain significance.").toList) (by decide)

lemma catMap_eq_nil {f : α → List β} {l : List α}
    (h : ∀ x ∈ l, f x = []) : catMap f l = [] := by
  induction l with
  | nil => rfl
  | cons a l ih =>
    have ha := h a (by simp)
    simp only [catMap, ha, List.nil_append]
    exact ih (fun x hx => h x (by simp [hx]))

lemma mem_catMap {f : α → List β} {l : List α} {b : β}
    (h : b ∈ catMap f l) : ∃ a ∈ l, b ∈ f a := by
  induction l with
  | nil => cases h
  | cons a l ih =>
    simp only [catMap, List.mem_append] at h
    rcases h with h | h
    · exact ⟨a, by simp, h⟩
    · obtain ⟨x, hx, hb⟩ := ih h
      exact ⟨x, by simp [hx], hb⟩

set_option maxRecDepth 100000 in
/-- C3 counterexample.  For a raw analysis text in which no pattern matches
any section, the structured PDF area and the displayed section list are
both empty, and no block of the generated document carries the raw text:
there is no schema-recognized flag and no verbatim fallback section, so the
claimed mandatory fallback behaviour is false on this input. -/
theorem c3_no_fallback_counterexample :
    analysisSectionBlocks (("The scan shows plain prose and nothing else").toList) = [] ∧
    displaySections (("The scan shows plain prose and nothing else").toList) = [] ∧
    (pdfBlocks (some none) (("The scan shows plain prose and nothing else").toList)
        (build_patient_data 30 (("Male").toList) [] [] [] [] [] [] [] [])
        (("CT Scan").toList) [] []).all
      (fun b => !(blockHasSeq (("The scan shows plain prose and nothing else").toList) b)) = true := by
  refine ⟨by rfl, by rfl, by rfl⟩

/-- C3 amended.  When the pattern cascade recognizes nothing (every PDF
section extraction and every display extraction is missing or empty), the
code emits no analysis section blocks at all and displays no section: the
degraded mode is an empty analysis area, not a verbatim raw-text fallback,
and no schema-recognized flag exists. -/
theorem c3_nothing_recognized_yields_empty_area (t : List Char)
    (hpdf : ∀ p ∈ pdf_sections, (extractedContent t p.1 p.2).getD [] = [])
    (hmain : ∀ title ∈ display_titles, (mainExtract t title).getD [] = []) :
    analysisSectionBlocks t = [] ∧ displaySections t = [] := by
  constructor
  · refine catMap_eq_nil (fun p hp => ?_)
    have h := hpdf p hp
    unfold sectionBlocks
    cases hc : extractedContent t p.1 p.2 with
    | none => rfl
    | some cf =>
      rw [hc] at h
      simp only [Option.getD_some] at h
      simp [h]
  · refine catMap_eq_nil (fun title ht => ?_)
    have h := hmain title ht
    cases hc : mainExtract t title with
    | none => simp [hc]
    | some c =>
      rw [hc] at h
      simp only [Option.getD_some] at h
      simp [hc, h]

set_option maxRecDepth 100000 in
/-- Witness for the amended C3 at a concrete markerless input. -/
theorem c3_nothing_recognized_yields_empty_area_witness :
    analysisSectionBlocks (("plain findings written as free prose").toList) = [] ∧
    displaySections (("plain findings written as free prose").toList) = [] :=
  c3_nothing_recognized_yields_empty_area
    (("plain findings written as free prose").toList) (by decide) (by decide)

set_option maxRecDepth 100000 in
/-- C4 counterexample.  For a text where exactly one section heading
matches, the PDF analysis area holds only the three blocks of that section: the
other fourteen schema sections are omitted outright and the sentinel
"no significant findings" appears nowhere, so the claimed
every-section-present-with-sentinel invariant is false on this input. -/
theorem c4_missing_sections_omitted_counterexample :
    analysisSectionBlocks (("**🔬 SCAN TYPE & PURPOSE:** CT scan of chest").toList) =
      [Block.para ("heading") (("🔬 SCAN TYPE & PURPOSE").toList),
       Block.para ("normal") (("CT scan of chest").toList),
       Block.spacer (1 / 5 * inchPts)] ∧
    (analysisSectionBlocks (("**🔬 SCAN TYPE & PURPOSE:** CT scan of chest").toList)).all
      (fun b => !(blockHasSeq (("no significant findings").toList) b)) = true := by
  refine ⟨by rfl, by rfl⟩

/-- C4 amended.  A schema section whose extraction fails (no pattern match,
or an empty stripped capture) contributes no blocks at all to the report:
it is omitted rather than filled with a sentinel value. -/
theorem c4_failed_extraction_section_omitted (t title key : List Char)
    (h : (extractedContent t title key).getD [] = []) :
    sectionBlocks t title key = [] := by
  unfold sectionBlocks
  cases hc : extractedContent t title key with
  | none => rfl
  | some cf =>
    rw [hc] at h
    simp only [Option.getD_some] at h
    simp [h]

set_option maxRecDepth 100000 in
/-- Witness for the amended C4 at a concrete input with no matching
heading. -/
theorem c4_failed_extraction_section_omitted_witness :
    sectionBlocks (("nothing structured here").toList)
      (("📋 EXECUTIVE SUMMARY").toList) (("Executive Summary").toList) = [] :=
  c4_failed_extraction_section_omitted
    (("nothing structured here").toList)
    (("📋 EXECUTIVE SUMMARY").toList) (("Executive Summary").toList) (by decide)

set_option maxRecDepth 100000 in
/-- C5 counterexample.  When every optional text field of the form is left
blank, the prompt sent to the model contains the literal gap
"- Medical History: " followed directly by a newline, and neither
"None reported" nor "Not specified" occurs anywhere in it; the PDF
patient-information line is the bare label "Medical History: ".  So the
claimed sentinel substitution does not happen: empty strings are
interpolated. -/
theorem c5_blank_fields_no_sentinel_counterexample :
    hasSub (("None reported").toList)
      (enhanced_query (build_patient_data 30 (("Male").toList) [] [] [] [] [] [] [] [])
        (("CT Scan").toList)) = false ∧
    hasSub (("Not specified").toList)
      (enhanced_query (build_patient_data 30 (("Male").toList) [] [] [] [] [] [] [] [])
        (("CT Scan").toList)) = false ∧
    hasSub (("- Medical History: \n").toList)
      (enhanced_query (build_patient_data 30 (("Male").toList) [] [] [] [] [] [] [] [])
        (("CT Scan").toList)) = true ∧
    (patient_info (build_patient_data 30 (("Male").toList) [] [] [] [] [] [] [] [])
        (("CT Scan").toList) []).getD 4 [] = ("Medical History: ").toList := by
  refine ⟨by rfl, by rfl, by rfl, by rfl⟩

set_option maxRecDepth 100000 in
/-- C5 amended.  A blank medical-history field is embedded verbatim: the
prompt then contains "- Medical History: " immediately followed by the next
line, and the PDF line is the bare label.  No sentinel replacement exists
anywhere in the pipeline. -/
theorem c5_blank_field_embedded_verbatim (pd : PatientData) (scan_type now : List Char)
    (h : pd.medical_history = []) :
    ("- Medical History: \n").toList <:+: enhanced_query pd scan_type ∧
    (patient_info pd scan_type now).getD 4 [] = ("Medical History: ").toList := by
  constructor
  · have h1 : ("- Medical History: \n").toList <:+:
        ("\n        - Medical History: ").toList ++ ("\n        - Current Medications: ").toList :=
      ⟨("\n        ").toList, ("        - Current Medications: ").toList, by decide⟩
    have h2 : ("\n        - Medical History: ").toList ++ ("\n        - Current Medications: ").toList
        <:+: enhanced_query pd scan_type := by
      refine ⟨("\n        MEDICAL SCAN ANALYSIS REQUEST - ").toList ++ scan_type ++
        ("\n        \n        Patient Profile:\n        - Age: ").toList ++ natChars pd.age ++
        (" years\n        - Gender: ").toList ++ pd.gender,
        pd.medications ++
        ("\n        - Current Symptoms: ").toList ++ pd.symptoms ++
        ("\n        - Health Problems: ").toList ++ pd.health_problems ++
        ("\n        - Diet: ").toList ++ pd.diet ++
        ("\n        - Lifestyle: ").toList ++ pd.lifestyle ++
        ("\n        - Habits: ").toList ++ pd.habits ++
        ("\n        - Family History: ").toList ++ pd.family_history ++
        ("\n        \n        ANALYSIS REQUIREMENTS:\n        1. First, search for the latest medical guidelines and research relevant to this ").toList ++ scan_type ++
        ("\n        2. Use current diagnostic criteria and reference ranges\n        3. Integrate real-time medical literature and evidence-based medicine\n        4. Provide comprehensive analysis following the structured format\n        5. Ensure all recommendations are based on current medical standards\n        \n        CRITICAL INSTRUCTIONS:\n        - If ANY emergency conditions are detected, state this immediately at the beginning\n        - Use the latest medical research and guidelines in your analysis\n        - Provide specific, actionable recommendations\n        - Include prognosis and latest research findings\n        - Ensure all medical advice is current and evidence-based\n        \n        Please analyze this medical scan/report with the highest level of medical expertise and current knowledge.\n        ").toList, ?_⟩
      simp only [enhanced_query, h, List.append_assoc, List.nil_append, List.append_nil]
    exact h1.trans h2
  · simp only [patient_info, List.getD_cons_succ, List.getD_cons_zero, truncField, h]
    simp

set_option maxRecDepth 100000 in
/-- Witness for the amended C5 on the all-blank profile. -/
theorem c5_blank_field_embedded_verbatim_witness :
    ("- Medical History: \n").toList <:+:
      enhanced_query (build_patient_data 30 (("Male").toList) [] [] [] [] [] [] [] [])
        (("CT Scan").toList) ∧
    (patient_info (build_patient_data 30 (("Male").toList) [] [] [] [] [] [] [] [])
        (("CT Scan").toList) []).getD 4 [] = ("Medical History: ").toList :=
  c5_blank_field_embedded_verbatim
    (build_patient_data 30 (("Male").toList) [] [] [] [] [] [] [] [])
    (("CT Scan").toList) [] (by rfl)

lemma anyImg_append (x y : List Block) : anyImg (x ++ y) = (anyImg x || anyImg y) := by
  induction x with
  | nil => simp [anyImg]
  | cons b x ih => simp [anyImg, ih, Bool.or_assoc]

lemma anyImg_catMap {f : α → List Block} (hf : ∀ x, anyImg (f x) = false) :
    ∀ l : List α, anyImg (catMap f l) = false := by
  intro l
  induction l with
  | nil => rfl
  | cons a l ih => simp [catMap, anyImg_append, hf, ih]

lemma anyImg_map_para (l : List (List Char)) (s : String) :
    anyImg (l.map (Block.para s)) = false := by
  induction l with
  | nil => rfl
  | cons x l ih => simp [anyImg, isImg, ih]

lemma anyImg_paragraphBlocks (cf : List Char) : anyImg (paragraphBlocks cf) = false := by
  unfold paragraphBlocks
  apply anyImg_catMap
  intro x
  cases hx : (pyStrip x).isEmpty <;> simp [hx, anyImg, isImg]

lemma anyImg_sectionBlocks (t a b : List Char) : anyImg (sectionBlocks t a b) = false := by
  unfold sectionBlocks
  split
  · rfl
  next cf heq =>
    by_cases h1 : cf.isEmpty = true
    · rw [if_pos h1]
      rfl
    · rw [if_neg h1]
      by_cases h2 : b = ("Emergency Status").toList ∨ b = ("Warning Signs").toList
      · rw [if_pos h2]
        by_cases h3 : is_emergency cf = true
        · rw [if_pos h3]
          simp [anyImg, isImg, anyImg_append]
        · rw [if_neg h3]
          simp [anyImg, isImg, anyImg_append]
      · rw [if_neg h2]
        simp [anyImg, isImg, anyImg_append, anyImg_paragraphBlocks]

lemma anyImg_analysisSectionBlocks (t : List Char) :
    anyImg (analysisSectionBlocks t) = false := by
  unfold analysisSectionBlocks
  exact anyImg_catMap (fun p => anyImg_sectionBlocks t p.1 p.2) pdf_sections

lemma anyImg_sectionArea (analysis : List Char) :
    anyImg (sectionArea analysis) = false := by
  unfold sectionArea
  split_ifs
  · rfl
  · exact anyImg_analysisSectionBlocks analysis

lemma anyImg_patientBlock (pd : PatientData) (scan_type now : List Char) :
    anyImg (patientBlock pd scan_type now) = false := by
  simp [patientBlock, anyImg, isImg, anyImg_append, anyImg_map_para]

set_option maxRecDepth 100000 in
/-- C6.  With undecodable image bytes the PDF builder still returns a
document: it contains no image block, it contains the title and the
mandatory disclaimer, and the whole per-section analysis area appears in it
unchanged. -/
theorem c6_undecodable_image_omitted (analysis : List Char) (pd : PatientData)
    (scan_type now err : List Char) :
    create_enhanced_medical_pdf (some none) analysis pd scan_type now err
      = some (pdfBlocks (some none) analysis pd scan_type now err) ∧
    anyImg (pdfBlocks (some none) analysis pd scan_type now err) = false ∧
    titlePara ∈ pdfBlocks (some none) analysis pd scan_type now err ∧
    disclaimerPara ∈ pdfBlocks (some none) analysis pd scan_type now err ∧
    sectionArea analysis <:+: pdfBlocks (some none) analysis pd scan_type now err := by
  refine ⟨rfl, ?_, ?_, ?_, ?_⟩
  · unfold pdfBlocks
    simp only [anyImg_append, anyImg_patientBlock, anyImg_sectionArea]
    have h1 : anyImg pdfHeader = false := rfl
    have h2 : anyImg (imageBlocks (some none) scan_type err) = false := rfl
    have h3 : anyImg pdfTail = false := rfl
    simp [h1, h2, h3, anyImg, isImg]
    exact ⟨⟨rfl, rfl⟩, anyImg_sectionArea analysis⟩
  · unfold pdfBlocks
    exact List.mem_append_left _ (by simp [pdfHeader])
  · unfold pdfBlocks
    exact List.mem_append_left _ (by simp [pdfHeader])
  · refine ⟨pdfHeader ++ patientBlock pd scan_type now ++
      imageBlocks (some none) scan_type err ++
      [Block.para ("heading") (("📊 COMPREHENSIVE MEDICAL ANALYSIS").toList)],
      pdfTail, ?_⟩
    simp [pdfBlocks, List.append_assoc]

lemma not_mem_escapeLtGt (s : List Char) :
    ('<' ∉ escapeLtGt s) ∧ ('>' ∉ escapeLtGt s) := by
  induction s with
  | nil => simp [escapeLtGt]
  | cons c rest ih =>
    unfold escapeLtGt
    constructor <;> simp only [List.mem_append] <;> rintro (hm | hm)
    · split_ifs at hm with h1 h2
      · revert hm; decide
      · revert hm; decide
      · simp at hm; exact h1 hm.symm
    · exact ih.1 hm
    · split_ifs at hm with h1 h2
      · revert hm; decide
      · revert hm; decide
      · simp at hm; exact h2 hm.symm
    · exact ih.2 hm

set_option maxRecDepth 100000 in
/-- C7 counterexample.  An "Emergency Status" body containing raw markup is
embedded verbatim in the emergency-styled paragraph: the assembled blocks
contain an unescaped `<`, so escaping is not applied uniformly to every
section. -/
theorem c7_unescaped_emergency_counterexample :
    (analysisSectionBlocks
        (("**🚨 EMERGENCY STATUS:** This is an emergency <b>seek care now</b>").toList)).any
      (fun b => blockHasChar '<' b) = true ∧
    Block.para ("emergency") (("This is an emergency <b>seek care now</b>").toList) ∈
      analysisSectionBlocks
        (("**🚨 EMERGENCY STATUS:** This is an emergency <b>seek care now</b>").toList) := by
  refine ⟨by rfl, by decide⟩

/-- C7 amended.  Escaping of `<` and `>` happens only on the non-emergency
paragraph path: every block produced by `paragraphBlocks` is free of raw
`<`/`>`, while the emergency-styled sections ("Emergency Status"/"Warning
Signs" with emergency vocabulary) embed their body verbatim, unescaped. -/
theorem c7_escaping_not_uniform :
    (∀ (cf : List Char) (b : Block), b ∈ paragraphBlocks cf →
      blockHasChar '<' b = false ∧ blockHasChar '>' b = false) ∧
    (∀ (t title key cf : List Char), extractedContent t title key = some cf → cf ≠ [] →
      (key = ("Emergency Status").toList ∨ key = ("Warning Signs").toList) →
      is_emergency cf = true →
      Block.para ("emergency") cf ∈ sectionBlocks t title key) := by
  constructor
  · intro cf b hb
    obtain ⟨p, _, hbp⟩ := mem_catMap hb
    by_cases hp : (pyStrip p).isEmpty
    · simp [hp] at hbp
    · simp only [hp, Bool.false_eq_true, if_false, List.mem_singleton] at hbp
      subst hbp
      constructor
      · simp [blockHasChar, (not_mem_escapeLtGt (pyStrip p)).1]
      · simp [blockHasChar, (not_mem_escapeLtGt (pyStrip p)).2]
  · intro t title key cf hext hne hkey hem
    have hempty : ¬ (cf.isEmpty = true) := by
      cases cf with
      | nil => exact absurd rfl hne
      | cons a l => simp
    unfold sectionBlocks
    split
    · next heq =>
      rw [hext] at heq
      cases heq
    · next cf2 heq =>
      rw [hext] at heq
      injection heq with heq2
      subst heq2
      rw [if_neg hempty, if_pos hkey, if_pos hem]
      simp

set_option maxRecDepth 100000 in
/-- Witness for the amended C7: an escaped normal paragraph, and a verbatim
emergency body with raw markup. -/
theorem c7_escaping_not_uniform_witness :
    (blockHasChar '<' (Block.para ("normal") (("a&lt;b").toList)) = false ∧
     blockHasChar '>' (Block.para ("normal") (("a&lt;b").toList)) = false) ∧
    Block.para ("emergency") (("urgent <tag> issue").toList) ∈
      sectionBlocks (("**🚨 WARNING SIGNS:** urgent <tag> issue").toList)
        (("🚨 WARNING SIGNS").toList) (("Warning Signs").toList) :=
  ⟨c7_escaping_not_uniform.1 (("a<b").toList)
      (Block.para ("normal") (("a&lt;b").toList)) (by decide),
   c7_escaping_not_uniform.2 (("**🚨 WARNING SIGNS:** urgent <tag> issue").toList)
      (("🚨 WARNING SIGNS").toList) (("Warning Signs").toList)
      (("urgent <tag> issue").toList) (by decide) (by decide) (by decide) (by decide)⟩

set_option maxRecDepth 100000 in
/-- C8 counterexample.  Under the double-precision arithmetic the source
actually uses, a 7-wide, 1-tall image gets display dimensions whose ratio
differs from the original ratio 1/7: `1/7` rounds to
`5146971002709138 · 2 ^ -55` and the displayed height to
`8685513567071670 · 2 ^ -47`, whose quotient by the exact width 432 cannot
be `1/7` (no binary64 value equals `432/7`).  So the claimed exact
aspect-ratio preservation is false of the program. -/
theorem c8_float_ratio_not_exact_counterexample :
    Dbl.toRat (displayDimsD 7 1).2 / Dbl.toRat (displayDimsD 7 1).1 ≠ 1 / 7 := by
  have h1 : displayDimsD 7 1 =
      (Dbl.mk 432 (Int.ofNat 0), Dbl.mk 8685513567071670 (Int.negSucc 46)) := by decide
  rw [h1]
  simp only [Dbl.toRat, pow2z]
  norm_num

/-- C8 amended.  Under exact real arithmetic, the display-size computation
of the PDF builder preserves the aspect ratio exactly and fits the maximum
footprint: width at most 6 inches and height at most 7 inches, over-tall
images scaled down rather than cropped.  The double-precision arithmetic of
the program preserves the ratio only approximately, as the counterexample
shows. -/
theorem c8_image_fit_preserves_aspect (w h : ℚ) (hw : 0 < w) (hh : 0 < h) :
    (displayDims w h).2 / (displayDims w h).1 = h / w ∧
    (displayDims w h).1 ≤ 6 * inchPts ∧
    (displayDims w h).2 ≤ 7 * inchPts := by
  have ha : 0 < h / w := div_pos hh hw
  unfold displayDims
  simp only [inchPts]
  split_ifs with hcond
  · refine ⟨?_, ?_, le_refl _⟩
    · rw [div_div_eq_mul_div, mul_comm ((7:ℚ) * 72) (h / w), mul_div_assoc,
        div_self (by norm_num : ((7:ℚ) * 72) ≠ 0), mul_one]
    · rw [div_le_iff₀ ha]
      linarith [hcond]
  · refine ⟨?_, le_refl _, le_of_not_lt hcond⟩
    rw [mul_comm ((6:ℚ) * 72) (h / w), mul_div_assoc,
      div_self (by norm_num : ((6:ℚ) * 72) ≠ 0), mul_one]

/-- Witness for the amended C8 at a concrete over-tall 1 × 2 image. -/
theorem c8_image_fit_preserves_aspect_witness :
    (displayDims 1 2).2 / (displayDims 1 2).1 = 2 / 1 ∧
    (displayDims 1 2).1 ≤ 6 * inchPts ∧
    (displayDims 1 2).2 ≤ 7 * inchPts :=
  c8_image_fit_preserves_aspect 1 2 (by norm_num) (by norm_num)

/-- C9.  The PDF patient-information lines for medical history, medications
and symptoms show the field verbatim when it has at most 200 characters,
and otherwise exactly the first 200 characters followed by "...". -/
theorem c9_patient_lines_truncated (pd : PatientData) (scan_type now : List Char) :
    (patient_info pd scan_type now).getD 4 [] =
      ("Medical History: ").toList ++
        (if 200 < pd.medical_history.length
         then pd.medical_history.take 200 ++ ("...").toList
         else pd.medical_history) ∧
    (patient_info pd scan_type now).getD 5 [] =
      ("Current Medications: ").toList ++
        (if 200 < pd.medications.length
         then pd.medications.take 200 ++ ("...").toList
         else pd.medications) ∧
    (patient_info pd scan_type now).getD 6 [] =
      ("Current Symptoms: ").toList ++
        (if 200 < pd.symptoms.length
         then pd.symptoms.take 200 ++ ("...").toList
         else pd.symptoms) := by
  refine ⟨?_, ?_, ?_⟩ <;>
  · simp only [patient_info, List.getD_cons_succ, List.getD_cons_zero, truncField]
    split_ifs with hv
    · simp
    · simp [List.take_of_length_le (le_of_not_lt hv)]

/-- C10.  When the analysis call fails (`None`) or yields a result that
strips to nothing, the session update of `app.py` lines 879-893 keeps the
previously stored results untouched. -/
theorem c10_failed_analysis_keeps_session (prev : SessionState)
    (resp : Option (List Char)) (imgBytes : List Char) (pd : PatientData)
    (scan_type ts : List Char)
    (h : analyze_medical_scan resp = none ∨ analyze_medical_scan resp = some []) :
    handleAnalysis prev (analyze_medical_scan resp) imgBytes pd scan_type ts = prev := by
  unfold handleAnalysis
  rcases h with h | h <;> rw [h] <;> simp [pyTruthy]

/-- Witness for C10: a whitespace-only model response strips to nothing and
the stored session is unchanged. -/
theorem c10_failed_analysis_keeps_session_witness :
    handleAnalysis
      (SessionState.mk (some (("old result").toList)) none none none none)
      (analyze_medical_scan (some (("   ").toList)))
      [] (build_patient_data 1 [] [] [] [] [] [] [] [] []) [] []
    = SessionState.mk (some (("old result").toList)) none none none none :=
  c10_failed_analysis_keeps_session
    (SessionState.mk (some (("old result").toList)) none none none none)
    (some (("   ").toList)) [] (build_patient_data 1 [] [] [] [] [] [] [] [] [])
    [] [] (Or.inr (by rfl))

end ScanReports
